import Mathlib

/-!
Shallow embedding of the dao-governance WalletConnect integration
(walletconnect-config.ts, stacks-wallet.ts, the DAO integration service and
its example driver), together with theorems settling the specification
claims about it.

Modelling conventions:
- JavaScript numbers are modelled as exact rationals; every concrete number
  appearing in the development is exactly representable in IEEE-754 double
  precision with an exact product, so the model and the running code agree
  at each input used in a theorem.
- Thrown JavaScript errors are modelled as the Except monad with the thrown
  message as the error value.
- The fabricated transaction results (random txid hex strings) are
  abstracted into a single constructor, since no claim depends on their
  contents, only on whether a result is produced at all.
- JavaScript truthiness on strings (null/undefined and the empty string are
  falsy) is modelled explicitly where the source branches on it.
-/

namespace DaoWc

/-! JavaScript string primitives used by the source. -/

/-- Model of the JavaScript expression s.split(".") restricted to the
single-character separator used by the source: splits on every dot,
keeping empty segments, and yields one (possibly empty) segment even for
the empty string. -/
def splitDotAux : List Char → List Char → List String
  | [], acc => [String.mk acc.reverse]
  | c :: rest, acc =>
    if c = '.' then String.mk acc.reverse :: splitDotAux rest []
    else splitDotAux rest (c :: acc)

/-- Model of params.contract.split(".") as used in callContract. -/
def splitDot (s : String) : List String := splitDotAux s.toList []

/-- Model of the JavaScript String.startsWith method. -/
def jsStartsWith (s pre : String) : Bool := pre.toList.isPrefixOf s.toList

/-- JavaScript truthiness for an optional string: null/undefined and the
empty string are falsy. -/
def jsFalsyStr : Option String → Bool
  | none => true
  | some s => s = ""

/-- Model of the JavaScript expression (s || d) for an optional string s:
the default d is used when s is null/undefined or empty. -/
def jsOrString (s : Option String) (d : String) : String :=
  match s with
  | none => d
  | some v => if v = "" then d else v

/-! Rendering of JavaScript number values.  The source calls
Number.prototype.toString via template literals and an explicit toString
call; the model below is faithful for every value whose fractional part
has at most six decimal digits, which covers every value arising in this
development (and each such value is exact in double precision, so the
running code prints the same digits). -/

/-- Left-pads a digit string with zeros to six characters. -/
def padSixDigits (s : String) : String :=
  String.mk (List.replicate (6 - s.length) '0' ++ s.toList)

/-- Drops trailing zero characters from a digit string. -/
def stripTrailingZeros (s : String) : String :=
  String.mk ((s.toList.reverse.dropWhile (fun c => c = '0')).reverse)

/-- Sign prefix of a rendered JavaScript number. -/
def jsNumSign (q : ℚ) : String := if q < 0 then "-" else ""

/-- Integer part (of the absolute value) of a JavaScript number. -/
def jsNumIntPart (q : ℚ) : ℕ := (⌊|q|⌋).toNat

/-- Fractional part of a JavaScript number, scaled to six decimal digits. -/
def jsNumFracDigits (q : ℚ) : ℕ :=
  (⌊(|q| - (jsNumIntPart q : ℚ)) * 1000000⌋).toNat

/-- Decimal rendering of a JavaScript number value: sign, integer part,
and, when nonzero, the fractional digits with trailing zeros removed. -/
def jsNumToString (q : ℚ) : String :=
  if jsNumFracDigits q = 0 then jsNumSign q ++ Nat.repr (jsNumIntPart q)
  else jsNumSign q ++ Nat.repr (jsNumIntPart q) ++ "." ++
       stripTrailingZeros (padSixDigits (Nat.repr (jsNumFracDigits q)))

/-! Configuration constants from walletconnect-config.ts. -/

/-- The three named Stacks network environments (enum StacksNetwork). -/
inductive StacksNetwork where
  | mainnet
  | testnet
  | devnet
deriving DecidableEq

/-- Runtime string value of a StacksNetwork enum member. -/
def StacksNetwork.value : StacksNetwork → String
  | .mainnet => "mainnet"
  | .testnet => "testnet"
  | .devnet => "devnet"

/-- Chain identifier table STACKS_CHAIN_IDS. -/
def STACKS_CHAIN_IDS : StacksNetwork → String
  | .mainnet => "stacks:mainnet"
  | .testnet => "stacks:testnet"
  | .devnet => "stacks:devnet"

/-- Method name constants from the STACKS_METHODS table. -/
def GET_ADDRESSES : String := "stx_getAddresses"

/-- Method name STACKS_METHODS.TRANSFER_STX. -/
def TRANSFER_STX : String := "stx_transferStx"

/-- Method name STACKS_METHODS.SIGN_TRANSACTION. -/
def SIGN_TRANSACTION : String := "stx_signTransaction"

/-- Method name STACKS_METHODS.SIGN_MESSAGE. -/
def SIGN_MESSAGE : String := "stx_signMessage"

/-- Method name STACKS_METHODS.SIGN_STRUCTURED_MESSAGE. -/
def SIGN_STRUCTURED_MESSAGE : String := "stx_signStructuredMessage"

/-- Method name STACKS_METHODS.CALL_CONTRACT. -/
def CALL_CONTRACT : String := "stx_callContract"

/-- Object.values(STACKS_METHODS), in declaration order. -/
def stacksMethodsValues : List String :=
  [GET_ADDRESSES, TRANSFER_STX, SIGN_TRANSACTION, SIGN_MESSAGE,
   SIGN_STRUCTURED_MESSAGE, CALL_CONTRACT]

/-- Object.values(STACKS_EVENTS), in declaration order. -/
def stacksEventsValues : List String := ["accountsChanged", "chainChanged"]

/-! Namespace negotiation (createSessionProposalHandler in
walletconnect-config.ts).  The handler iterates the proposal's
requiredNamespaces, keeps the keys starting with "stacks", and builds an
approved namespace per kept key. -/

/-- One requested capability namespace of a session proposal; each field is
optional in the incoming JSON. -/
structure RequiredNamespace where
  chains : Option (List String)
  methods : Option (List String)
  events : Option (List String)
deriving DecidableEq

/-- One approved capability namespace as built by the handler. -/
structure ApprovedNamespace where
  accounts : List String
  methods : List String
  events : List String
deriving DecidableEq

/-- Approved namespace built for one kept key: accounts pair each requested
chain id with the literal placeholder string YOUR_STACKS_ADDRESS (the
handler has no access to any connected address); methods and events fall
back to the full supported sets only when the proposal field is
null/undefined, because a present-but-empty array is truthy under the
source's use of the logical-or operator. -/
def approveNamespaceEntry (ns : RequiredNamespace) : ApprovedNamespace :=
  { accounts := (ns.chains.getD []).map (fun chain => chain ++ ":YOUR_STACKS_ADDRESS")
    methods := ns.methods.getD stacksMethodsValues
    events := ns.events.getD stacksEventsValues }

/-- The approved-namespaces mapping built by createSessionProposalHandler
from the proposal's requiredNamespaces entries. -/
def buildApprovedNamespaces (required : List (String × RequiredNamespace)) :
    List (String × ApprovedNamespace) :=
  (required.filter (fun kv => jsStartsWith kv.1 "stacks")).map
    (fun kv => (kv.1, approveNamespaceEntry kv.2))

/-! Wallet service (stacks-wallet.ts). -/

/-- Parameters of stx_transferStx. -/
structure TransferSTXParams where
  sender : String
  recipient : String
  amount : String
  memo : Option String
  network : Option String
deriving DecidableEq

/-- Parameters of stx_signTransaction. -/
structure SignTransactionParams where
  transaction : String
  broadcast : Option Bool
  network : Option String
deriving DecidableEq

/-- Parameters of stx_signMessage. -/
structure SignMessageParams where
  address : String
  message : String
  messageType : Option String
  network : Option String
  domain : Option String
deriving DecidableEq

/-- Parameters of stx_callContract; contract is an address.contract-name
identifier string. -/
structure CallContractParams where
  contract : String
  functionName : String
  functionArgs : List String
  sender : Option String
  network : Option String
deriving DecidableEq

/-- Simulated transaction result: the source fabricates a random txid and a
placeholder transaction string; no claim depends on those contents. -/
inductive TxResult where
  | simulated
deriving DecidableEq

/-- Simulated message-signature result (random signature and public key in
the source). -/
inductive SignMessageResult where
  | simulated
deriving DecidableEq

/-- Error message thrown when no wallet is connected. -/
def noWalletMsg : String := "No wallet connected"

/-- Error message thrown by transferSTX on a sender mismatch. -/
def senderMismatchMsg : String := "Sender address does not match connected wallet"

/-- Error message thrown by signMessage on an address mismatch. -/
def addressMismatchMsg : String := "Address does not match connected wallet"

/-- Error message thrown by callContract on a malformed contract identifier. -/
def invalidContractMsg : String :=
  "Invalid contract identifier. Expected format: address.contract-name"

/-- StacksWalletService.transferSTX: requires a (truthy) connected address
and that the sender parameter equal it, then produces a simulated
transaction result. -/
def transferSTX (connectedAddress : Option String) (params : TransferSTXParams) :
    Except String TxResult :=
  match connectedAddress with
  | none => .error noWalletMsg
  | some addr =>
    if addr = "" then .error noWalletMsg
    else if params.sender ≠ addr then .error senderMismatchMsg
    else .ok .simulated

/-- StacksWalletService.signTransaction: requires a connected address; the
signature is fabricated in the source. -/
def signTransaction (connectedAddress : Option String) (_params : SignTransactionParams) :
    Except String TxResult :=
  match connectedAddress with
  | none => .error noWalletMsg
  | some addr =>
    if addr = "" then .error noWalletMsg
    else .ok .simulated

/-- StacksWalletService.signMessage: requires a connected address and that
the address parameter equal it. -/
def signMessage (connectedAddress : Option String) (params : SignMessageParams) :
    Except String SignMessageResult :=
  match connectedAddress with
  | none => .error noWalletMsg
  | some addr =>
    if addr = "" then .error noWalletMsg
    else if params.address ≠ addr then .error addressMismatchMsg
    else .ok .simulated

/-- Contract-identifier parsing inside callContract: split on dots and
destructure the first two parts; either part missing or empty is rejected
(JavaScript destructuring yields undefined for a missing element, and both
undefined and the empty string are falsy). -/
def parseContractIdentifier (contract : String) : Option (String × String) :=
  let parts := splitDot contract
  if jsFalsyStr parts[0]? || jsFalsyStr parts[1]? then none
  else some (parts[0]?.getD "", parts[1]?.getD "")

/-- StacksWalletService.callContract: requires a connected address and a
well-formed contract identifier; the sender parameter is never inspected. -/
def callContract (connectedAddress : Option String) (params : CallContractParams) :
    Except String TxResult :=
  match connectedAddress with
  | none => .error noWalletMsg
  | some addr =>
    if addr = "" then .error noWalletMsg
    else
      match parseContractIdentifier params.contract with
      | none => .error invalidContractMsg
      | some _ => .ok .simulated

/-- One address entry of a stx_getAddresses response. -/
structure StacksAddress where
  symbol : String
  address : String
deriving DecidableEq

/-- Result shape of stx_getAddresses. -/
structure GetAddressesResponse where
  addresses : List StacksAddress
deriving DecidableEq

/-- The fixed fallback address the source substitutes when no address is
connected. -/
def PLACEHOLDER_STX_ADDRESS : String := "SP000000000000000000000000000000000"

/-- Addresses object built by the stx_getAddresses paths: the connected
address when truthy, else the fixed placeholder. -/
def getAddressesResult (connectedAddress : Option String) : GetAddressesResponse :=
  { addresses := [{ symbol := "STX"
                    address := jsOrString connectedAddress PLACEHOLDER_STX_ADDRESS }] }

/-- The stx_getAddresses entry of createRequestHandlers: it never throws,
returning the addresses object unconditionally. -/
def getAddressesRequestHandler (connectedAddress : Option String) :
    Except String GetAddressesResponse :=
  .ok (getAddressesResult connectedAddress)

/-- Helper microSTXToSTX from stacks-wallet.ts: divide by one million. -/
def microSTXToSTX (microSTX : ℚ) : ℚ := microSTX / 1000000

/-- Helper STXToMicroSTX from stacks-wallet.ts: multiply by one million and
render with Number.prototype.toString; no rounding or truncation occurs. -/
def STXToMicroSTX (stx : ℚ) : String := jsNumToString (stx * 1000000)

/-- Helper isValidStacksAddress from stacks-wallet.ts: fixed two-letter
network prefix and exactly 41 characters. -/
def isValidStacksAddress (address : String) (network : StacksNetwork) : Bool :=
  match network with
  | .mainnet => jsStartsWith address "SP" && address.length == 41
  | _ => jsStartsWith address "ST" && address.length == 41

/-- Conversion to minor units as the specification words it: multiply by
one million and take the floor.  Stated for comparison with STXToMicroSTX. -/
def toMinorUnits (x : ℚ) : ℤ := ⌊x * 1000000⌋

/-! Session request router (createSessionRequestHandler in
walletconnect-config.ts).  The registered callback evaluates the property
access requestHandlers[method] on the handler table, a plain object
literal; when the resulting value is truthy it is invoked and the result
sent as a success response, otherwise the Unsupported-method error is
thrown; any thrown error is caught and answered with a code -32000 error
response carrying the same request id.  Because the table is a plain
object, the property access walks the prototype chain: a method name that
is not an own key can still hit a truthy Object.prototype property, and
those names are dispatched to the inherited value instead of reaching the
Unsupported-method branch. -/

/-- Outcome of invoking requestHandlers[method](methodParams) when the
name misses the own keys but hits Object.prototype: the inherited
callable methods return a value on the JSON-derived arguments these
requests carry, while the accessor-backed __proto__ value (an object, not
a function) and the accessor-defining methods (whose second argument,
undefined here, must be a function) throw a TypeError. -/
inductive ProtoCallOutcome where
  | returns
  | typeError
deriving DecidableEq

/-- Object.prototype property names whose inherited value, called with one
JSON-derived argument, completes normally and yields a value. -/
def objectPrototypeCallableProps : List String :=
  ["constructor", "hasOwnProperty", "isPrototypeOf", "propertyIsEnumerable",
   "toLocaleString", "toString", "valueOf", "__lookupGetter__", "__lookupSetter__"]

/-- Object.prototype property names whose inherited value is truthy but
whose invocation with one JSON-derived argument throws a TypeError. -/
def objectPrototypeThrowingProps : List String :=
  ["__proto__", "__defineGetter__", "__defineSetter__"]

/-- Prototype-chain step of the property access requestHandlers[method]
on a plain object literal: what, if anything, the name finds on
Object.prototype, and how invoking it turns out. -/
def objectPrototypeLookup (method : String) : Option ProtoCallOutcome :=
  if objectPrototypeCallableProps.contains method then some .returns
  else if objectPrototypeThrowingProps.contains method then some .typeError
  else none

/-- A response sent back through respondSessionRequest: success with a
registered handler's result, success whose payload is the value returned
by the inherited Object.prototype method of the given name, an error with
code and the thrown message, or an error whose message is the runtime's
TypeError text (implementation-defined, left opaque); every constructor
carries the request id. -/
inductive RouterResponse (R : Type) where
  | ok (id : ℕ) (result : R)
  | okInherited (id : ℕ) (method : String)
  | err (id : ℕ) (code : ℤ) (message : String)
  | errTypeError (id : ℕ) (code : ℤ)
deriving DecidableEq

/-- Correlation id carried by a response. -/
def RouterResponse.respId {R : Type} : RouterResponse R → ℕ
  | .ok i _ => i
  | .okInherited i _ => i
  | .err i _ _ => i
  | .errTypeError i _ => i

/-- The list of responses the session-request callback sends for one
incoming request: exactly one, on every path.  An own key dispatches to
its registered handler (success or caught failure); a name inherited from
Object.prototype is truthy, so it is invoked — a success response when the
inherited call returns, a caught TypeError otherwise; only a name missing
from both reaches the thrown Unsupported-method error, answered with the
fixed message. -/
def routeSessionRequest {P R : Type} (requestHandlers : List (String × (P → Except String R)))
    (id : ℕ) (method : String) (params : P) : List (RouterResponse R) :=
  match requestHandlers.lookup method with
  | some handler =>
    match handler params with
    | .ok result => [.ok id result]
    | .error msg => [.err id (-32000) msg]
  | none =>
    match objectPrototypeLookup method with
    | some .returns => [.okInherited id method]
    | some .typeError => [.errTypeError id (-32000)]
    | none => [.err id (-32000) ("Unsupported method: " ++ method)]

/-! DAO governance service (dao-integration.ts).  Each public operation
first reads the connected address and throws when it is falsy, then builds
the contract-call parameter object (the call descriptor), then hands it to
StacksWalletService.callContract.  The descriptor-building prefix of each
method is modelled separately so theorems can speak about the built call;
the full method composes it with callContract. -/

/-- DAO contract configuration. -/
structure DAOConfig where
  contractAddress : String
  contractName : String
  network : StacksNetwork
deriving DecidableEq

/-- DAOGovernanceService.getContractIdentifier: address dot contract name. -/
def getContractIdentifier (config : DAOConfig) : String :=
  config.contractAddress ++ "." ++ config.contractName

/-- Single-character string holding the principal marker (the apostrophe
character, code point 39) prefixed to principal literals by the source. -/
def principalMark : String := String.singleton (Char.ofNat 39)

/-- Connected-address guard shared by every DAO operation: the operation
proceeds only when getConnectedAddress() returns a truthy string. -/
def requireConnected (connectedAddress : Option String) : Except String String :=
  match connectedAddress with
  | none => .error noWalletMsg
  | some addr => if addr = "" then .error noWalletMsg else .ok addr

/-- Descriptor built by createProposal: function create-proposal with the
title and description in double quotes, the recipient as a principal
literal, and the amount converted by STXToMicroSTX and prefixed with u. -/
def createProposalCall (config : DAOConfig) (connectedAddress : Option String)
    (title description recipient : String) (amountSTX : ℚ) :
    Except String CallContractParams :=
  (requireConnected connectedAddress).map fun addr =>
    { contract := getContractIdentifier config
      functionName := "create-proposal"
      functionArgs := ["\"" ++ title ++ "\"", "\"" ++ description ++ "\"",
                       principalMark ++ recipient, "u" ++ STXToMicroSTX amountSTX]
      sender := some addr
      network := some config.network.value }

/-- Descriptor built by vote: function vote with the proposal id as a uint
literal and the support flag as a boolean literal. -/
def voteCall (config : DAOConfig) (connectedAddress : Option String)
    (proposalId : ℕ) (support : Bool) : Except String CallContractParams :=
  (requireConnected connectedAddress).map fun addr =>
    { contract := getContractIdentifier config
      functionName := "vote"
      functionArgs := ["u" ++ Nat.repr proposalId, if support then "true" else "false"]
      sender := some addr
      network := some config.network.value }

/-- Descriptor built by executeProposal. -/
def executeProposalCall (config : DAOConfig) (connectedAddress : Option String)
    (proposalId : ℕ) : Except String CallContractParams :=
  (requireConnected connectedAddress).map fun addr =>
    { contract := getContractIdentifier config
      functionName := "execute-proposal"
      functionArgs := ["u" ++ Nat.repr proposalId]
      sender := some addr
      network := some config.network.value }

/-- Descriptor built by cancelProposal. -/
def cancelProposalCall (config : DAOConfig) (connectedAddress : Option String)
    (proposalId : ℕ) : Except String CallContractParams :=
  (requireConnected connectedAddress).map fun addr =>
    { contract := getContractIdentifier config
      functionName := "cancel-proposal"
      functionArgs := ["u" ++ Nat.repr proposalId]
      sender := some addr
      network := some config.network.value }

/-- Descriptor built by depositToTreasury: amount converted by
STXToMicroSTX and prefixed with u. -/
def depositToTreasuryCall (config : DAOConfig) (connectedAddress : Option String)
    (amountSTX : ℚ) : Except String CallContractParams :=
  (requireConnected connectedAddress).map fun addr =>
    { contract := getContractIdentifier config
      functionName := "deposit-to-treasury"
      functionArgs := ["u" ++ STXToMicroSTX amountSTX]
      sender := some addr
      network := some config.network.value }

/-- Descriptor built by addMember. -/
def addMemberCall (config : DAOConfig) (connectedAddress : Option String)
    (memberAddress : String) : Except String CallContractParams :=
  (requireConnected connectedAddress).map fun addr =>
    { contract := getContractIdentifier config
      functionName := "add-member"
      functionArgs := [principalMark ++ memberAddress]
      sender := some addr
      network := some config.network.value }

/-- Descriptor built by removeMember. -/
def removeMemberCall (config : DAOConfig) (connectedAddress : Option String)
    (memberAddress : String) : Except String CallContractParams :=
  (requireConnected connectedAddress).map fun addr =>
    { contract := getContractIdentifier config
      functionName := "remove-member"
      functionArgs := [principalMark ++ memberAddress]
      sender := some addr
      network := some config.network.value }

/-- Descriptor built by updateVotingPower. -/
def updateVotingPowerCall (config : DAOConfig) (connectedAddress : Option String)
    (memberAddress : String) (newPower : ℕ) : Except String CallContractParams :=
  (requireConnected connectedAddress).map fun addr =>
    { contract := getContractIdentifier config
      functionName := "update-voting-power"
      functionArgs := [principalMark ++ memberAddress, "u" ++ Nat.repr newPower]
      sender := some addr
      network := some config.network.value }

/-- Hands a built descriptor to StacksWalletService.callContract, pairing
the descriptor with the call's result so theorems can observe both. -/
def runContractCall (connectedAddress : Option String) (params : CallContractParams) :
    Except String (CallContractParams × TxResult) :=
  (callContract connectedAddress params).map (fun r => (params, r))

/-- DAOGovernanceService.createProposal, end to end. -/
def createProposal (config : DAOConfig) (connectedAddress : Option String)
    (title description recipient : String) (amountSTX : ℚ) :
    Except String (CallContractParams × TxResult) :=
  (createProposalCall config connectedAddress title description recipient amountSTX).bind
    (runContractCall connectedAddress)

/-- DAOGovernanceService.vote, end to end. -/
def vote (config : DAOConfig) (connectedAddress : Option String)
    (proposalId : ℕ) (support : Bool) : Except String (CallContractParams × TxResult) :=
  (voteCall config connectedAddress proposalId support).bind
    (runContractCall connectedAddress)

/-- DAOGovernanceService.executeProposal, end to end. -/
def executeProposal (config : DAOConfig) (connectedAddress : Option String)
    (proposalId : ℕ) : Except String (CallContractParams × TxResult) :=
  (executeProposalCall config connectedAddress proposalId).bind
    (runContractCall connectedAddress)

/-- DAOGovernanceService.cancelProposal, end to end. -/
def cancelProposal (config : DAOConfig) (connectedAddress : Option String)
    (proposalId : ℕ) : Except String (CallContractParams × TxResult) :=
  (cancelProposalCall config connectedAddress proposalId).bind
    (runContractCall connectedAddress)

/-- DAOGovernanceService.depositToTreasury, end to end. -/
def depositToTreasury (config : DAOConfig) (connectedAddress : Option String)
    (amountSTX : ℚ) : Except String (CallContractParams × TxResult) :=
  (depositToTreasuryCall config connectedAddress amountSTX).bind
    (runContractCall connectedAddress)

/-- DAOGovernanceService.addMember, end to end. -/
def addMember (config : DAOConfig) (connectedAddress : Option String)
    (memberAddress : String) : Except String (CallContractParams × TxResult) :=
  (addMemberCall config connectedAddress memberAddress).bind
    (runContractCall connectedAddress)

/-- DAOGovernanceService.removeMember, end to end. -/
def removeMember (config : DAOConfig) (connectedAddress : Option String)
    (memberAddress : String) : Except String (CallContractParams × TxResult) :=
  (removeMemberCall config connectedAddress memberAddress).bind
    (runContractCall connectedAddress)

/-- DAOGovernanceService.updateVotingPower, end to end. -/
def updateVotingPower (config : DAOConfig) (connectedAddress : Option String)
    (memberAddress : String) (newPower : ℕ) :
    Except String (CallContractParams × TxResult) :=
  (updateVotingPowerCall config connectedAddress memberAddress newPower).bind
    (runContractCall connectedAddress)

/-- A contract-identifier string the source's parser rejects: no dot at
all (a single segment), or an empty first segment, or an empty second
segment. -/
def malformedContractId (c : String) : Prop :=
  (splitDot c).length = 1 ∨ (splitDot c)[0]? = some "" ∨ (splitDot c)[1]? = some ""

instance (c : String) : Decidable (malformedContractId c) := by
  unfold malformedContractId; infer_instance

/-! Concrete values from the example driver, used by witnesses and
counterexamples. -/

/-- The DAO configuration of the example driver. -/
def exampleConfig : DAOConfig :=
  { contractAddress := "ST1PQHQKV0RJXZFY1DGX8MNSNYVE3VGZJSRTPGZGM"
    contractName := "dao-governance"
    network := .testnet }

/-- The connected address of the example driver. -/
def exampleAddr : String := "ST1PQHQKV0RJXZFY1DGX8MNSNYVE3VGZJSRTPGZGM"

/-- The recipient address of the example proposal. -/
def exampleRecipient : String := "ST2CY5V39NHDPWSXMW9QDT3HC3GD6Q6XX4CFRK9AG"

/-- A stub handler table carrying the five registered method names of
createRequestHandlers, used to instantiate router theorems. -/
def exampleHandlerTable : List (String × (Unit → Except String Unit)) :=
  [(GET_ADDRESSES, fun _ => .ok ()),
   (TRANSFER_STX, fun _ => .ok ()),
   (SIGN_TRANSACTION, fun _ => .ok ()),
   (SIGN_MESSAGE, fun _ => .ok ()),
   (CALL_CONTRACT, fun _ => .ok ())]

/-! Evaluation lemmas for the number rendering. -/

/-- Appending to the empty string is the identity. -/
theorem empty_append_str (s : String) : "" ++ s = s := by
  cases s
  rfl

/-- A nonnegative number renders without a sign. -/
theorem jsNumSign_of_nonneg {q : ℚ} (h : 0 ≤ q) : jsNumSign q = "" := by
  unfold jsNumSign
  rw [if_neg (not_lt.mpr h)]

/-- A negative number renders with a minus sign. -/
theorem jsNumSign_of_neg {q : ℚ} (h : q < 0) : jsNumSign q = "-" := by
  unfold jsNumSign
  rw [if_pos h]

/-- Integer part of a natural-number value. -/
theorem jsNumIntPart_natCast (n : ℕ) : jsNumIntPart (n : ℚ) = n := by
  unfold jsNumIntPart
  rw [abs_of_nonneg (by positivity), Int.floor_natCast, Int.toNat_natCast]

/-- A natural-number value has no fractional digits. -/
theorem jsNumFracDigits_natCast (n : ℕ) : jsNumFracDigits (n : ℚ) = 0 := by
  unfold jsNumFracDigits
  rw [jsNumIntPart_natCast, abs_of_nonneg (by positivity : (0 : ℚ) ≤ (n : ℚ))]
  norm_num

/-- Rendering a natural-number value gives its decimal digits. -/
theorem jsNumToString_natCast (n : ℕ) : jsNumToString (n : ℚ) = Nat.repr n := by
  unfold jsNumToString
  rw [if_pos (jsNumFracDigits_natCast n), jsNumSign_of_nonneg (by positivity),
      jsNumIntPart_natCast, empty_append_str]

/-- Rendering the negation of a positive natural-number value gives a minus
sign followed by its decimal digits. -/
theorem jsNumToString_neg_natCast (n : ℕ) (h : 0 < n) :
    jsNumToString (-(n : ℚ)) = "-" ++ Nat.repr n := by
  have habs : |(-(n : ℚ))| = (n : ℚ) := by
    rw [abs_neg, abs_of_nonneg (by positivity : (0 : ℚ) ≤ (n : ℚ))]
  have h1 : jsNumIntPart (-(n : ℚ)) = n := by
    unfold jsNumIntPart
    rw [habs, Int.floor_natCast, Int.toNat_natCast]
  have h2 : jsNumFracDigits (-(n : ℚ)) = 0 := by
    unfold jsNumFracDigits
    rw [habs, h1]
    norm_num
  have hneg : (-(n : ℚ)) < 0 := neg_lt_zero.mpr (by exact_mod_cast h)
  unfold jsNumToString
  rw [if_pos h2, jsNumSign_of_neg hneg, h1]

/-- Rendering the half-integral value 15625/2 gives one fractional digit. -/
theorem jsNumToString_half : jsNumToString ((15625 : ℚ)/2) = "7812.5" := by
  have h0 : (0 : ℚ) ≤ (15625 : ℚ)/2 := by norm_num
  have habs : |(15625 : ℚ)/2| = (15625 : ℚ)/2 := abs_of_nonneg h0
  have hfl : ⌊(15625 : ℚ)/2⌋ = 7812 := by
    rw [Int.floor_eq_iff] ; norm_num
  have h1 : jsNumIntPart ((15625 : ℚ)/2) = 7812 := by
    unfold jsNumIntPart
    rw [habs, hfl]
    rfl
  have h2 : jsNumFracDigits ((15625 : ℚ)/2) = 500000 := by
    unfold jsNumFracDigits
    rw [habs, h1,
        show ((15625 : ℚ)/2 - ((7812 : ℕ) : ℚ)) * 1000000 = ((500000 : ℕ) : ℚ) by
          push_cast; norm_num,
        Int.floor_natCast, Int.toNat_natCast]
  unfold jsNumToString
  rw [h2, jsNumSign_of_nonneg h0, h1]
  rfl

/-- Converting 100 whole STX yields the minor-unit digits 100000000. -/
theorem STXToMicroSTX_100 : STXToMicroSTX 100 = "100000000" := by
  unfold STXToMicroSTX
  rw [show (100 : ℚ) * 1000000 = ((100000000 : ℕ) : ℚ) by norm_num,
      jsNumToString_natCast]
  rfl

/-- Converting -50 whole STX yields the string -50000000, with no failure
and no sign check. -/
theorem STXToMicroSTX_neg50 : STXToMicroSTX (-50) = "-50000000" := by
  unfold STXToMicroSTX
  rw [show (-50 : ℚ) * 1000000 = -((50000000 : ℕ) : ℚ) by norm_num,
      jsNumToString_neg_natCast 50000000 (by norm_num)]
  rfl

/-- Converting 1/128 whole STX yields the non-integral string 7812.5. -/
theorem STXToMicroSTX_eighth : STXToMicroSTX (1/128) = "7812.5" := by
  unfold STXToMicroSTX
  rw [show (1/128 : ℚ) * 1000000 = (15625 : ℚ)/2 by norm_num]
  exact jsNumToString_half

/-- The specification's floor conversion truncates 1/128 STX to 7812. -/
theorem toMinorUnits_eighth : toMinorUnits (1/128) = 7812 := by
  unfold toMinorUnits
  rw [show (1/128 : ℚ) * 1000000 = (15625 : ℚ)/2 by norm_num, Int.floor_eq_iff] ; norm_num

/-! Claim theorems. -/

/-- C1: evaluating the proposal handler on a namespace requesting chain
stacks:testnet with an empty (present) methods list shows that the
approved accounts pair the chain id with the literal placeholder
YOUR_STACKS_ADDRESS rather than the connected address (which the handler
never receives), and that the empty methods list is passed through instead
of being replaced by the full supported method set; only a null/undefined
events field falls back to the default set. -/
theorem C1_namespace_negotiation_eval :
    buildApprovedNamespaces
        [("stacks", { chains := some ["stacks:testnet"], methods := some [], events := none })] =
      [("stacks", { accounts := ["stacks:testnet:YOUR_STACKS_ADDRESS"], methods := [],
                    events := stacksEventsValues })] ∧
    "stacks:testnet:YOUR_STACKS_ADDRESS" ≠ "stacks:testnet:" ++ exampleAddr ∧
    ([] : List String) ≠ stacksMethodsValues :=
  ⟨rfl, by decide, by decide⟩

/-- C2 counterexample: callContract performs no identity check on its
sender parameter — with a connected address and a sender that differs from
it, the call still succeeds and produces a transaction result, so the
claim that every sender-receiving handler fails on a mismatch is false. -/
theorem C2_callContract_ignores_sender :
    exampleRecipient ≠ exampleAddr ∧
    callContract (some exampleAddr)
        { contract := "ST1PQHQKV0RJXZFY1DGX8MNSNYVE3VGZJSRTPGZGM.dao-governance",
          functionName := "vote", functionArgs := ["u1", "true"],
          sender := some exampleRecipient, network := some "testnet" } =
      .ok .simulated :=
  ⟨by decide, rfl⟩

/-- C2 (amended): transferSTX rejects a sender differing from the connected
address and signMessage rejects a differing address, each with its
identity-mismatch message and no transaction result; callContract, by
contrast, never inspects its sender parameter — its outcome is invariant
under changing the sender. -/
theorem C2_identity_mismatch_coverage (addr : String) (tp : TransferSTXParams)
    (sp : SignMessageParams) (cp : CallContractParams) (s : Option String)
    (h0 : addr ≠ "") (h1 : tp.sender ≠ addr) (h2 : sp.address ≠ addr) :
    transferSTX (some addr) tp = .error senderMismatchMsg ∧
    signMessage (some addr) sp = .error addressMismatchMsg ∧
    callContract (some addr) { cp with sender := s } = callContract (some addr) cp := by
  refine ⟨?_, ?_, rfl⟩
  · simp [transferSTX, h0, h1]
  · simp [signMessage, h0, h2]

/-- Witness for the amended C2 at concrete inputs. -/
theorem C2_identity_mismatch_coverage_witness :
    (exampleAddr ≠ "" ∧ exampleRecipient ≠ exampleAddr) ∧
    (transferSTX (some exampleAddr)
        { sender := exampleRecipient, recipient := exampleAddr, amount := "10",
          memo := none, network := none } = .error senderMismatchMsg ∧
     signMessage (some exampleAddr)
        { address := exampleRecipient, message := "hello", messageType := none,
          network := none, domain := none } = .error addressMismatchMsg ∧
     callContract (some exampleAddr)
        { ({ contract := "a.b", functionName := "f", functionArgs := [],
             sender := some exampleAddr, network := none } : CallContractParams) with
          sender := none } =
       callContract (some exampleAddr)
        { contract := "a.b", functionName := "f", functionArgs := [],
          sender := some exampleAddr, network := none }) :=
  ⟨⟨by decide, by decide⟩,
   C2_identity_mismatch_coverage exampleAddr _ _ _ none (by decide) (by decide) (by decide)⟩

/-- C3: at the input 1/128 STX (an amount exactly representable in double
precision, with exact product) the code's STXToMicroSTX renders the
non-integral string 7812.5: no truncation is applied, diverging from the
specified floor conversion, whose value at the same input is 7812. -/
theorem C3_no_truncation_eval :
    STXToMicroSTX (1/128) = "7812.5" ∧
    toMinorUnits (1/128) = 7812 ∧
    ("7812.5" : String) ≠ "7812" :=
  ⟨STXToMicroSTX_eighth, toMinorUnits_eighth, by decide⟩

/-- C4: with no connected address, every one of the eight governance
operations fails with the no-account error, for arbitrary parameters, and
no call descriptor or contract call is produced. -/
theorem C4_no_account_rejection (config : DAOConfig)
    (title description recipient memberAddress : String)
    (amountSTX : ℚ) (proposalId newPower : ℕ) (support : Bool) :
    createProposal config none title description recipient amountSTX = .error noWalletMsg ∧
    vote config none proposalId support = .error noWalletMsg ∧
    executeProposal config none proposalId = .error noWalletMsg ∧
    cancelProposal config none proposalId = .error noWalletMsg ∧
    depositToTreasury config none amountSTX = .error noWalletMsg ∧
    addMember config none memberAddress = .error noWalletMsg ∧
    removeMember config none memberAddress = .error noWalletMsg ∧
    updateVotingPower config none memberAddress newPower = .error noWalletMsg :=
  ⟨rfl, rfl, rfl, rfl, rfl, rfl, rfl, rfl⟩

/-- C5: for every handler table and every incoming request — method
registered or not, handler succeeding or failing, name inherited from
Object.prototype (whether its invocation returns or throws) or missing
entirely — the router emits exactly one response, and it carries the
request's correlation id; a dispatch failure is converted into that single
error response rather than escaping. -/
theorem C5_router_exactly_one_response {P R : Type}
    (requestHandlers : List (String × (P → Except String R)))
    (id : ℕ) (method : String) (params : P) :
    (routeSessionRequest requestHandlers id method params).map RouterResponse.respId = [id] := by
  cases hl : requestHandlers.lookup method with
  | none =>
    cases hp : objectPrototypeLookup method with
    | none => simp [routeSessionRequest, hl, hp, RouterResponse.respId]
    | some o => cases o <;> simp [routeSessionRequest, hl, hp, RouterResponse.respId]
  | some handler =>
    cases hr : handler params with
    | ok r => simp [routeSessionRequest, hl, hr, RouterResponse.respId]
    | error e => simp [routeSessionRequest, hl, hr, RouterResponse.respId]

/-- C6 counterexample: the unregistered name toString is found on the
handler object's prototype chain — Object.prototype.toString is truthy —
so the router invokes it and sends a success response, not the code -32000
Unsupported-method error the claim requires of every unregistered name. -/
theorem C6_prototype_lookup_counterexample :
    exampleHandlerTable.lookup "toString" = none ∧
    routeSessionRequest exampleHandlerTable 7 "toString" () =
      [RouterResponse.okInherited 7 "toString"] ∧
    ([RouterResponse.okInherited 7 "toString"] : List (RouterResponse Unit)) ≠
      [RouterResponse.err 7 (-32000) "Unsupported method: toString"] :=
  ⟨rfl, rfl, by decide⟩

/-- C6 (amended): a request whose method name has no registered handler
and names no Object.prototype property is answered with a single error
response with code -32000 and message exactly the fixed prefix
concatenated with the method name; an unregistered name inherited from
Object.prototype is instead dispatched to the inherited value. -/
theorem C6_unsupported_method {P R : Type}
    (requestHandlers : List (String × (P → Except String R)))
    (id : ℕ) (method : String) (params : P)
    (h : requestHandlers.lookup method = none)
    (hp : objectPrototypeLookup method = none) :
    routeSessionRequest requestHandlers id method params =
      [.err id (-32000) ("Unsupported method: " ++ method)] := by
  simp [routeSessionRequest, h, hp]

/-- Witness for the amended C6 at the method stx_unknownMethod, absent
both from the five registered names and from Object.prototype. -/
theorem C6_unsupported_method_witness :
    (exampleHandlerTable.lookup "stx_unknownMethod" = none ∧
     objectPrototypeLookup "stx_unknownMethod" = none) ∧
    routeSessionRequest exampleHandlerTable 42 "stx_unknownMethod" () =
      [.err 42 (-32000) "Unsupported method: stx_unknownMethod"] :=
  ⟨⟨rfl, rfl⟩, C6_unsupported_method exampleHandlerTable 42 "stx_unknownMethod" () rfl rfl⟩

/-- C7: with any connected address, createProposal builds a call with
function name create-proposal and the ordered arguments quoted title,
quoted description, principal-marked recipient, and u followed by the
repository's major-to-minor conversion of the amount (so amount 100 yields
u100000000), and vote builds a call with function name vote and the
ordered arguments u followed by the proposal id and the boolean literal;
names and argument order are fixed. -/
theorem C7_fixed_call_shapes (config : DAOConfig) (addr title description recipient : String)
    (amountSTX : ℚ) (proposalId : ℕ) (support : Bool) (h : addr ≠ "") :
    createProposalCall config (some addr) title description recipient amountSTX =
      .ok { contract := getContractIdentifier config
            functionName := "create-proposal"
            functionArgs := ["\"" ++ title ++ "\"", "\"" ++ description ++ "\"",
                             principalMark ++ recipient, "u" ++ STXToMicroSTX amountSTX]
            sender := some addr
            network := some config.network.value } ∧
    voteCall config (some addr) proposalId support =
      .ok { contract := getContractIdentifier config
            functionName := "vote"
            functionArgs := ["u" ++ Nat.repr proposalId, if support then "true" else "false"]
            sender := some addr
            network := some config.network.value } ∧
    STXToMicroSTX 100 = "100000000" := by
  refine ⟨?_, ?_, STXToMicroSTX_100⟩
  · simp [createProposalCall, requireConnected, h, Except.map]
  · simp [voteCall, requireConnected, h, Except.map]

/-- Witness for C7 at the scenario inputs of the example driver. -/
theorem C7_fixed_call_shapes_witness :
    (exampleAddr ≠ "") ∧
    (createProposalCall exampleConfig (some exampleAddr) "Fund Community Event"
        "Allocate 100 STX to fund the upcoming community hackathon" exampleRecipient 100 =
      .ok { contract := getContractIdentifier exampleConfig
            functionName := "create-proposal"
            functionArgs := ["\"Fund Community Event\"",
                             "\"Allocate 100 STX to fund the upcoming community hackathon\"",
                             principalMark ++ exampleRecipient, "u" ++ STXToMicroSTX 100]
            sender := some exampleAddr
            network := some exampleConfig.network.value } ∧
     voteCall exampleConfig (some exampleAddr) 1 true =
      .ok { contract := getContractIdentifier exampleConfig
            functionName := "vote"
            functionArgs := ["u1", "true"]
            sender := some exampleAddr
            network := some exampleConfig.network.value } ∧
     STXToMicroSTX 100 = "100000000") :=
  ⟨by decide,
   C7_fixed_call_shapes exampleConfig exampleAddr "Fund Community Event"
     "Allocate 100 STX to fund the upcoming community hackathon" exampleRecipient
     100 1 true (by decide)⟩

/-- C8 counterexample: with a connected address, createProposal invoked
with a negative amount and a syntactically invalid recipient address does
not fail with an encoding violation — it builds the descriptor (encoding
the negative amount as u-50000000) and produces a transaction result. -/
theorem C8_missing_validation_counterexample :
    ((-50 : ℚ) < 0) ∧
    isValidStacksAddress "XYZ" .testnet = false ∧
    createProposal exampleConfig (some exampleAddr) "t" "d" "XYZ" (-50) =
      .ok ({ contract := "ST1PQHQKV0RJXZFY1DGX8MNSNYVE3VGZJSRTPGZGM.dao-governance"
             functionName := "create-proposal"
             functionArgs := ["\"t\"", "\"d\"", principalMark ++ "XYZ", "u-50000000"]
             sender := some exampleAddr
             network := some "testnet" }, TxResult.simulated) := by
  refine ⟨by norm_num, by decide, ?_⟩
  have hb : createProposalCall exampleConfig (some exampleAddr) "t" "d" "XYZ" (-50) =
      .ok { contract := "ST1PQHQKV0RJXZFY1DGX8MNSNYVE3VGZJSRTPGZGM.dao-governance"
            functionName := "create-proposal"
            functionArgs := ["\"t\"", "\"d\"", principalMark ++ "XYZ",
                             "u" ++ STXToMicroSTX (-50)]
            sender := some exampleAddr
            network := some "testnet" } := rfl
  unfold createProposal
  rw [hb, STXToMicroSTX_neg50]
  rfl

/-- C8 (amended): the only precondition a governance operation checks
before building its call is that a connected address exists; amount sign
and address syntax are not validated, so the descriptor is built for every
amount and every recipient string, and the no-account error is the sole
rejection. -/
theorem C8_only_connection_checked (config : DAOConfig)
    (addr title description recipient : String) (amountSTX : ℚ) (h : addr ≠ "") :
    (createProposalCall config (some addr) title description recipient amountSTX).isOk = true ∧
    (depositToTreasuryCall config (some addr) amountSTX).isOk = true ∧
    createProposalCall config none title description recipient amountSTX = .error noWalletMsg ∧
    depositToTreasuryCall config none amountSTX = .error noWalletMsg := by
  refine ⟨?_, ?_, rfl, rfl⟩
  · simp [createProposalCall, requireConnected, h, Except.isOk, Except.toBool, Except.map]
  · simp [depositToTreasuryCall, requireConnected, h, Except.isOk, Except.toBool, Except.map]

/-- Witness for the amended C8 at a negative amount and an invalid
recipient. -/
theorem C8_only_connection_checked_witness :
    (exampleAddr ≠ "") ∧
    ((createProposalCall exampleConfig (some exampleAddr) "t" "d" "XYZ" (-50)).isOk = true ∧
     (depositToTreasuryCall exampleConfig (some exampleAddr) (-50)).isOk = true ∧
     createProposalCall exampleConfig none "t" "d" "XYZ" (-50) = .error noWalletMsg ∧
     depositToTreasuryCall exampleConfig none (-50) = .error noWalletMsg) :=
  ⟨by decide,
   C8_only_connection_checked exampleConfig exampleAddr "t" "d" "XYZ" (-50) (by decide)⟩

/-- C9: with a connected address, callContract on a contract identifier
with no dot, an empty address segment, or an empty contract-name segment
fails with the malformed-identifier error and produces no transaction
result. -/
theorem C9_malformed_identifier (addr : String) (params : CallContractParams)
    (h0 : addr ≠ "") (h : malformedContractId params.contract) :
    callContract (some addr) params = .error invalidContractMsg := by
  have hp : parseContractIdentifier params.contract = none := by
    unfold parseContractIdentifier
    rcases h with h | h | h
    · have h1 : (splitDot params.contract)[1]? = none :=
        List.getElem?_eq_none (le_of_eq h)
      simp [h1, jsFalsyStr]
    · simp [h, jsFalsyStr]
    · simp [h, jsFalsyStr]
  simp [callContract, h0, hp]

/-- Witness for C9 at a separator-free contract identifier. -/
theorem C9_malformed_identifier_witness :
    (exampleAddr ≠ "" ∧ malformedContractId "nodot") ∧
    callContract (some exampleAddr)
        { contract := "nodot", functionName := "f", functionArgs := [],
          sender := none, network := none } = .error invalidContractMsg :=
  ⟨⟨by decide, by decide⟩,
   C9_malformed_identifier exampleAddr
     { contract := "nodot", functionName := "f", functionArgs := [],
       sender := none, network := none } (by decide) (by decide)⟩

/-- C10: with no connected address the stx_getAddresses handler does not
fail: it succeeds with the fixed 35-character placeholder address, which
fails the repository's own 41-character address validation on every
network prefix. -/
theorem C10_getAddresses_placeholder :
    getAddressesRequestHandler none =
      .ok { addresses := [{ symbol := "STX", address := PLACEHOLDER_STX_ADDRESS }] } ∧
    PLACEHOLDER_STX_ADDRESS.length = 35 ∧
    isValidStacksAddress PLACEHOLDER_STX_ADDRESS .mainnet = false ∧
    isValidStacksAddress PLACEHOLDER_STX_ADDRESS .testnet = false :=
  ⟨rfl, by decide, by decide, by decide⟩

end DaoWc
